import Mathlib

/-!
Shallow embedding of `src/main.py` (a FastAPI speech-to-text service) and
proofs about its request-handling contract.

Modelling conventions:
- Python exceptions become explicit `Except` / outcome values.
- External collaborators (the Whisper model call, the byte staging I/O,
  `os.unlink`) are oracles passed in as parameters, one per call site.
- The filesystem of scratch files is a list of file names; `tempfile`'s
  unique-name generation is modelled by a monotone counter.
- Python module-level name resolution is modelled explicitly, because
  `main.py` references the name `torch` without ever importing it: looking
  a name up in the module namespace either succeeds or raises `NameError`.
- Machine floats in the response (`round(info.duration, 2)`) are modelled
  as exact rationals with Python's round-half-to-even rule.
-/

/-- Python exception values that matter to the model: a `NameError` for an
unresolved global name, and any other exception carrying its message. -/
inductive PyExc where
  | nameError (n : String)
  | generic (msg : String)
deriving DecidableEq

/-- Names bound at module level in `src/main.py`: the imports of lines 6-15
and the module-level assignments and definitions.  `torch` is not among
them: no `import torch` statement exists in the file. -/
def mainModuleNames : List String :=
  [("os"), ("logging"), ("tempfile"), ("Path"), ("asynccontextmanager"),
   ("FastAPI"), ("File"), ("UploadFile"), ("HTTPException"), ("JSONResponse"),
   ("WhisperModel"), ("uvicorn"), ("logger"), ("model"), ("MAX_FILE_SIZE"),
   ("ALLOWED_EXTENSIONS"), ("MODEL_SIZE"), ("load_model"), ("lifespan"),
   ("app"), ("root"), ("transcribe_audio")]

/-- Evaluating a global name in a Python module namespace: returns the name
if bound, otherwise the evaluation raises `NameError`. -/
def lookupName (env : List String) (n : String) : Except PyExc Unit :=
  if n ∈ env then Except.ok () else Except.error (PyExc.nameError n)

/-- Configuration constant `MAX_FILE_SIZE = 100 * 1024 * 1024` (line 28). -/
def MAX_FILE_SIZE : Nat := 100 * 1024 * 1024

/-- Configuration constant `ALLOWED_EXTENSIONS` (line 29). -/
def ALLOWED_EXTENSIONS : List String :=
  [(".wav"), (".mp3"), (".m4a"), (".flac"), (".ogg"), (".webm")]

/-- Configuration constant `MODEL_SIZE = "large-v3"` (line 30). -/
def MODEL_SIZE : String := "large-v3"

/-- Split a character list at every occurrence of a separator character,
keeping empty pieces, as Python's `str.split(sep)` does. -/
def splitChar (sep : Char) : List Char → List (List Char)
  | [] => [[]]
  | c :: rest =>
    if c == sep then [] :: splitChar sep rest
    else
      match splitChar sep rest with
      | [] => [[c]]
      | h :: t => (c :: h) :: t

/-- Lower-casing a string, character by character (`str.lower()`). -/
def toLowerStr (s : String) : String := String.mk (s.toList.map Char.toLower)

/-- Index of the last occurrence of a dot in a list of characters. -/
def lastDotIdx (cs : List Char) : Option Nat :=
  match cs.reverse.findIdx? (fun c => c == '.') with
  | none => none
  | some r => some (cs.length - 1 - r)

/-- Model of `pathlib.PurePath(filename).suffix`: take the final path
component (empty and `.` components dropped, as pathlib does), then the
substring from the last dot, provided that dot is neither the first nor the
last character of the component; otherwise the suffix is empty. -/
def pathSuffix (filename : String) : String :=
  let comps := (splitChar '/' filename.toList).filter
    (fun c => !(c == []) && !(c == ['.']))
  let cs := comps.getLast?.getD []
  match lastDotIdx cs with
  | none => ""
  | some i => if 0 < i ∧ i < cs.length - 1 then String.mk (cs.drop i) else ""

/-- Model of Python's `str.strip()`: drop whitespace characters from both
ends of the string. -/
def pyStrip (s : String) : String :=
  String.mk (((s.toList.dropWhile Char.isWhitespace).reverse.dropWhile
    Char.isWhitespace).reverse)

/-- An uploaded file as the handler sees it: the declared filename and the
byte length obtained by `file.file.seek(0, 2); file.file.tell()`. -/
structure Upload where
  filename : String
  size : Nat
deriving DecidableEq

/-- One transcription segment as produced by the model; the handler only
reads `segment.text` (line 134). -/
structure Segment where
  text : String
deriving DecidableEq

/-- The summary metadata returned by `model.transcribe`: detected language
code and total duration in seconds (`info.language`, `info.duration`). -/
structure TransInfo where
  language : String
  duration : ℚ
deriving DecidableEq

/-- The JSON body of a successful `/transcribe` response (lines 138-142). -/
structure ResponseBody where
  transcription : String
  language_detected : String
  duration_seconds : ℚ
deriving DecidableEq

/-- How one call of `transcribe_audio` terminates, as seen by the client:
a 200 JSON response, a raised `HTTPException` with status and detail
(translated by the framework into that status code), or an exception that
escapes the handler unhandled and surfaces as a raw fault. -/
inductive Outcome where
  | response (body : ResponseBody)
  | httpError (status : Nat) (detail : String)
  | unhandled (exc : String)
deriving DecidableEq

/-- Outcomes of the external effects of one `/transcribe` request, one per
call site in the source: `tempfile.NamedTemporaryFile` creation (line 118),
the `await file.read()` plus `temp_file.write(content)` staging writes
(lines 119-120), the `model.transcribe` call together with draining its
segment generator (lines 126-134), and `os.unlink` (line 152). -/
structure Oracles where
  create : Except String Unit
  stage : Except String Unit
  transcribe : Except String (List Segment × TransInfo)
  unlinkOk : Bool

/-- Scratch-file name produced by `tempfile.NamedTemporaryFile`: the
library guarantees a name distinct from every concurrently existing file
and never repeats names within a process run, modelled by a counter. -/
def tempName (ctr : Nat) : String := "/tmp/tmpfile" ++ toString ctr

/-- The message of Python's unbound-local failure, raised when a function
reads a local variable before any assignment to it has executed. -/
def unboundLocalMsg : String :=
  "UnboundLocalError: local variable temp_path referenced before assignment"

/-- Detail string of the invalid-extension `HTTPException` (line 100);
the iteration order of the Python set literal is fixed here to the literal
order, which no theorem below depends on. -/
def invalidTypeDetail : String :=
  "Invalid file type. Allowed: " ++ String.intercalate (", ") ALLOWED_EXTENSIONS

/-- Detail string of the oversize `HTTPException` (line 111). -/
def tooLargeDetail : String := "File too large. Max size: 100.0MB"

/-- Python's `round` on a real value: nearest integer, ties to even. -/
def roundHalfEven (q : ℚ) : ℤ :=
  let f : ℤ := ⌊q⌋
  if q - f < 1 / 2 then f
  else if 1 / 2 < q - f then f + 1
  else if f % 2 = 0 then f else f + 1

/-- Model of `round(x, 2)` (line 141): round to two decimal places with
Python's round-half-to-even rule, on exact rationals. -/
def pyRound2 (q : ℚ) : ℚ := (roundHalfEven (q * 100) : ℚ) / 100

/-- Result of one `transcribe_audio` call: the outcome sent to the client,
the scratch-file filesystem after the call, the temp-name counter after the
call, and the name of the scratch file this request created, if any. -/
structure HandlerResult where
  outcome : Outcome
  fs : List String
  ctr : Nat
  scratch : Option String
deriving DecidableEq

/-- The `finally` block of lines 148-154, reached with the temp file
created and `temp_path` bound: `if os.path.exists(temp_path)` then try
`os.unlink`, and a failure of the unlink is logged and swallowed. -/
def cleanupScratch (tname : String) (fs : List String) (unlinkOk : Bool) :
    List String :=
  if tname ∈ fs then (if unlinkOk then fs.erase tname else fs) else fs

/-- The `POST /transcribe` handler `transcribe_audio` (lines 83-154),
translated statement by statement.

Control flow of the source: the two validation checks raise
`HTTPException(400)` before the `try` block, so no scratch file exists on
those paths.  Inside `try`, the `with tempfile.NamedTemporaryFile(...)`
creates the scratch file, then `file.read()` and `temp_file.write(content)`
run, and only after them is `temp_path = temp_file.name` assigned.  The
`except Exception` clause turns any exception from the `try` body into
`HTTPException(500, "Transcription failed: ...")`.  The `finally` clause
tests `if temp_file and os.path.exists(temp_path)`: when `temp_file` is
still `None` the conjunction short-circuits, but when the temp file was
created and the staging reads/writes raised, `temp_path` was never
assigned, so evaluating it raises `UnboundLocalError` inside `finally`,
which replaces the in-flight `HTTPException` and escapes unhandled. -/
def transcribe_audio (u : Upload) (o : Oracles) (fs : List String)
    (ctr : Nat) : HandlerResult :=
  let file_ext := toLowerStr (pathSuffix u.filename)
  if file_ext ∈ ALLOWED_EXTENSIONS then
    if u.size > MAX_FILE_SIZE then
      HandlerResult.mk (Outcome.httpError 400 tooLargeDetail) fs ctr none
    else
      match o.create with
      | Except.error e =>
          HandlerResult.mk
            (Outcome.httpError 500 ("Transcription failed: " ++ e))
            fs ctr none
      | Except.ok _ =>
          let tname := tempName ctr
          let fs1 := tname :: fs
          match o.stage with
          | Except.error _ =>
              HandlerResult.mk (Outcome.unhandled unboundLocalMsg)
                fs1 (ctr + 1) (some tname)
          | Except.ok _ =>
              match o.transcribe with
              | Except.error e =>
                  HandlerResult.mk
                    (Outcome.httpError 500 ("Transcription failed: " ++ e))
                    (cleanupScratch tname fs1 o.unlinkOk) (ctr + 1)
                    (some tname)
              | Except.ok (segs, info) =>
                  let transcription :=
                    String.intercalate (" ") (segs.map Segment.text)
                  HandlerResult.mk
                    (Outcome.response
                      (ResponseBody.mk (pyStrip transcription) info.language
                        (pyRound2 info.duration)))
                    (cleanupScratch tname fs1 o.unlinkOk) (ctr + 1)
                    (some tname)
  else
    HandlerResult.mk (Outcome.httpError 400 invalidTypeDetail) fs ctr none

/-- Two sequential calls of the handler on the same upload with the same
external-effect outcomes, starting from an empty scratch directory and a
fresh temp-name counter; the second call starts from the filesystem and
counter the first call left behind. -/
def runTwice (u : Upload) (o : Oracles) : HandlerResult × HandlerResult :=
  let r1 := transcribe_audio u o [] 0
  (r1, transcribe_audio u o r1.fs r1.ctr)

/-- The inference-engine handle held in the module-level `model` global; its
behaviour is external to this development. -/
structure WhisperModel where
  id : Nat
deriving DecidableEq

/-- Device and compute-type selection of lines 37-38, reached only once the
name `torch` has resolved: `device = "cuda" if torch.cuda.is_available()
else "cpu"` and `compute_type = "float16" if device == "cuda" else "int8"`. -/
def selectDeviceCompute (cudaAvailable : Bool) : String × String :=
  let device := if cudaAvailable then "cuda" else "cpu"
  let compute_type := if device = "cuda" then "float16" else "int8"
  (device, compute_type)

/-- The startup function `load_model` (lines 33-54).  Its first statement
evaluates `torch.cuda.is_available()`, so it first resolves the global name
`torch` in the module namespace; if that fails the `NameError` propagates
(the statement is outside the `try`).  Otherwise device and compute type
are selected, and `WhisperModel(...)` is constructed: on failure the
`except` clause logs and re-raises the construction error. -/
def load_model (env : List String) (cudaAvailable : Bool)
    (construct : Except String WhisperModel) : Except PyExc WhisperModel :=
  match lookupName env ("torch") with
  | Except.error e => Except.error e
  | Except.ok _ =>
    let _dc := selectDeviceCompute cudaAvailable
    match construct with
    | Except.error e => Except.error (PyExc.generic e)
    | Except.ok m => Except.ok m

/-- Observable state of the process after the startup phase: the global
`model` and whether the app reached its serving state. -/
structure ServerState where
  model : Option WhisperModel
  serving : Bool
deriving DecidableEq

/-- The part of `lifespan` (lines 57-62) that runs before `yield`: it calls
`load_model()`; an exception there propagates out of the lifespan context
and the framework aborts startup, so the app never reaches its serving
state.  If `load_model` returns, the global `model` has been assigned and
the app starts serving at `yield`. -/
def lifespan_startup (env : List String) (cudaAvailable : Bool)
    (construct : Except String WhisperModel) : Except PyExc ServerState :=
  match load_model env cudaAvailable construct with
  | Except.error e => Except.error e
  | Except.ok m => Except.ok (ServerState.mk (some m) true)

/-- The JSON body returned by the health endpoint (lines 76-80). -/
structure RootBody where
  status : String
  model : String
  device : String
deriving DecidableEq

/-- The `GET /` handler `root` (lines 73-80): its body evaluates
`torch.cuda.is_available()` on every call, which requires resolving the
global name `torch` first; on success it returns the static status body. -/
def root (env : List String) (cudaAvailable : Bool) :
    Except PyExc RootBody :=
  match lookupName env ("torch") with
  | Except.error e => Except.error e
  | Except.ok _ =>
    Except.ok
      (RootBody.mk ("running") MODEL_SIZE (if cudaAvailable then "cuda" else "cpu"))

/-- Oracle values for a request whose staging, inference and cleanup all
succeed, the inference yielding segments Hello and world, language en and
duration 3.456 seconds; used to instantiate several witnesses. -/
def okOracles : Oracles :=
  Oracles.mk (Except.ok ()) (Except.ok ())
    (Except.ok ([Segment.mk ("Hello"), Segment.mk ("world")],
      TransInfo.mk ("en") (3.456 : ℚ))) true

/-- C3: an upload whose declared filename's extension, lower-cased, is not
in the allowed set is rejected with a 400 invalid-file-type HTTPException;
the handler returns before the try block, so the filesystem and counter are
untouched, no scratch file is created, and the result does not depend on
any of the external-effect oracles. -/
theorem invalid_extension_rejected (u : Upload) (o : Oracles)
    (fs : List String) (ctr : Nat)
    (h : toLowerStr (pathSuffix u.filename) ∉ ALLOWED_EXTENSIONS) :
    transcribe_audio u o fs ctr =
      HandlerResult.mk (Outcome.httpError 400 invalidTypeDetail) fs ctr none := by
  unfold transcribe_audio
  simp [h]

/-- Witness for C3 at the concrete upload notes.txt. -/
theorem invalid_extension_rejected_wit :
    transcribe_audio (Upload.mk ("notes.txt") 10) okOracles [] 0 =
      HandlerResult.mk (Outcome.httpError 400 invalidTypeDetail) [] 0 none :=
  invalid_extension_rejected (Upload.mk ("notes.txt") 10) okOracles [] 0
    (by decide)

/-- C10: an upload whose declared filename has an empty pathlib suffix (no
dot, an empty name, or a dot-leading name such as .wav) is rejected with
the 400 invalid-file-type HTTPException, never treated as an audio type. -/
theorem missing_extension_rejected (u : Upload) (o : Oracles)
    (fs : List String) (ctr : Nat) (h : pathSuffix u.filename = "") :
    transcribe_audio u o fs ctr =
      HandlerResult.mk (Outcome.httpError 400 invalidTypeDetail) fs ctr none := by
  unfold transcribe_audio
  have hnot : toLowerStr (pathSuffix u.filename) ∉ ALLOWED_EXTENSIONS := by
    rw [h]; decide
  simp [hnot]

/-- Witness for C10 at the concrete dot-leading filename .wav, whose
pathlib suffix is empty. -/
theorem missing_extension_rejected_wit :
    transcribe_audio (Upload.mk (".wav") 10) okOracles [] 0 =
      HandlerResult.mk (Outcome.httpError 400 invalidTypeDetail) [] 0 none :=
  missing_extension_rejected (Upload.mk (".wav") 10) okOracles [] 0 (by decide)

/-- C4: an upload whose byte length strictly exceeds MAX_FILE_SIZE is
answered with some 400 HTTPException whichever branch fires (invalid type
when the extension is bad, oversize otherwise), and in both cases the
handler returns before the try block: no scratch file is created. -/
theorem oversize_rejected (u : Upload) (o : Oracles) (fs : List String)
    (ctr : Nat) (h : u.size > MAX_FILE_SIZE) :
    ∃ d, transcribe_audio u o fs ctr =
      HandlerResult.mk (Outcome.httpError 400 d) fs ctr none := by
  unfold transcribe_audio
  by_cases hext : toLowerStr (pathSuffix u.filename) ∈ ALLOWED_EXTENSIONS
  · exact ⟨tooLargeDetail, by simp [hext, h]⟩
  · exact ⟨invalidTypeDetail, by simp [hext]⟩

/-- Witness for C4 at a 100 MiB + 1 byte upload with a valid extension. -/
theorem oversize_rejected_wit :
    ∃ d, transcribe_audio (Upload.mk ("big.wav") (MAX_FILE_SIZE + 1))
        okOracles [] 0 =
      HandlerResult.mk (Outcome.httpError 400 d) [] 0 none :=
  oversize_rejected (Upload.mk ("big.wav") (MAX_FILE_SIZE + 1)) okOracles [] 0
    (Nat.lt_succ_self MAX_FILE_SIZE)

/-- C5: on a validated upload whose staging and inference succeed, the
response body is the segment texts joined with a single space and then
stripped, the detected language, and the duration rounded to two decimal
places with Python rounding. -/
theorem success_response_format (u : Upload) (segs : List Segment)
    (info : TransInfo) (fs : List String) (ctr : Nat) (unlinkOk : Bool)
    (hext : toLowerStr (pathSuffix u.filename) ∈ ALLOWED_EXTENSIONS)
    (hsize : u.size ≤ MAX_FILE_SIZE) :
    (transcribe_audio u
        (Oracles.mk (Except.ok ()) (Except.ok ())
          (Except.ok (segs, info)) unlinkOk) fs ctr).outcome =
      Outcome.response (ResponseBody.mk
        (pyStrip (String.intercalate (" ") (segs.map Segment.text)))
        info.language (pyRound2 info.duration)) := by
  unfold transcribe_audio
  simp [hext, Nat.not_lt.mpr hsize]

/-- Witness for C5: segments Hello and world, language en, duration 3.456
produce exactly the body transcription Hello world, language en, duration
3.46. -/
theorem success_response_format_wit :
    (transcribe_audio (Upload.mk ("a.wav") 4) okOracles [] 0).outcome =
      Outcome.response (ResponseBody.mk ("Hello world") ("en") (3.46 : ℚ)) := by
  have h : (transcribe_audio (Upload.mk ("a.wav") 4) okOracles [] 0).outcome =
      Outcome.response (ResponseBody.mk
        (pyStrip (String.intercalate (" ")
          ([Segment.mk ("Hello"), Segment.mk ("world")].map Segment.text)))
        ("en") (pyRound2 (3.456 : ℚ))) :=
    success_response_format (Upload.mk ("a.wav") 4)
      [Segment.mk ("Hello"), Segment.mk ("world")]
      (TransInfo.mk ("en") (3.456 : ℚ)) [] 0 true (by decide) (by decide)
  rw [h]
  have hq : pyRound2 (3.456 : ℚ) = (3.46 : ℚ) := by
    norm_num [pyRound2, roundHalfEven]
  rw [hq]
  rfl

/-- C9: handling the same valid upload twice in sequence, with staging,
inference and cleanup succeeding both times, yields the same successful
response twice, the two scratch files carry distinct names, and after each
of the two runs the scratch directory is back to empty. -/
theorem double_run_independent (u : Upload) (segs : List Segment)
    (info : TransInfo)
    (hext : toLowerStr (pathSuffix u.filename) ∈ ALLOWED_EXTENSIONS)
    (hsize : u.size ≤ MAX_FILE_SIZE) :
    (runTwice u (Oracles.mk (Except.ok ()) (Except.ok ())
        (Except.ok (segs, info)) true)).1.outcome =
      (runTwice u (Oracles.mk (Except.ok ()) (Except.ok ())
        (Except.ok (segs, info)) true)).2.outcome ∧
    (∃ b, (runTwice u (Oracles.mk (Except.ok ()) (Except.ok ())
        (Except.ok (segs, info)) true)).1.outcome = Outcome.response b) ∧
    (runTwice u (Oracles.mk (Except.ok ()) (Except.ok ())
        (Except.ok (segs, info)) true)).1.scratch = some (tempName 0) ∧
    (runTwice u (Oracles.mk (Except.ok ()) (Except.ok ())
        (Except.ok (segs, info)) true)).2.scratch = some (tempName 1) ∧
    tempName 0 ≠ tempName 1 ∧
    (runTwice u (Oracles.mk (Except.ok ()) (Except.ok ())
        (Except.ok (segs, info)) true)).1.fs = [] ∧
    (runTwice u (Oracles.mk (Except.ok ()) (Except.ok ())
        (Except.ok (segs, info)) true)).2.fs = [] := by
  unfold runTwice transcribe_audio
  simp [hext, Nat.not_lt.mpr hsize, cleanupScratch, tempName]
  decide

/-- Witness for C9 at the concrete upload a.wav with the stub model. -/
theorem double_run_independent_wit :
    (runTwice (Upload.mk ("a.wav") 4) (Oracles.mk (Except.ok ())
        (Except.ok ()) (Except.ok ([Segment.mk ("Hello")],
          TransInfo.mk ("en") (3.456 : ℚ))) true)).1.outcome =
      (runTwice (Upload.mk ("a.wav") 4) (Oracles.mk (Except.ok ())
        (Except.ok ()) (Except.ok ([Segment.mk ("Hello")],
          TransInfo.mk ("en") (3.456 : ℚ))) true)).2.outcome ∧
    (∃ b, (runTwice (Upload.mk ("a.wav") 4) (Oracles.mk (Except.ok ())
        (Except.ok ()) (Except.ok ([Segment.mk ("Hello")],
          TransInfo.mk ("en") (3.456 : ℚ))) true)).1.outcome =
      Outcome.response b) ∧
    (runTwice (Upload.mk ("a.wav") 4) (Oracles.mk (Except.ok ())
        (Except.ok ()) (Except.ok ([Segment.mk ("Hello")],
          TransInfo.mk ("en") (3.456 : ℚ))) true)).1.scratch =
      some (tempName 0) ∧
    (runTwice (Upload.mk ("a.wav") 4) (Oracles.mk (Except.ok ())
        (Except.ok ()) (Except.ok ([Segment.mk ("Hello")],
          TransInfo.mk ("en") (3.456 : ℚ))) true)).2.scratch =
      some (tempName 1) ∧
    tempName 0 ≠ tempName 1 ∧
    (runTwice (Upload.mk ("a.wav") 4) (Oracles.mk (Except.ok ())
        (Except.ok ()) (Except.ok ([Segment.mk ("Hello")],
          TransInfo.mk ("en") (3.456 : ℚ))) true)).1.fs = [] ∧
    (runTwice (Upload.mk ("a.wav") 4) (Oracles.mk (Except.ok ())
        (Except.ok ()) (Except.ok ([Segment.mk ("Hello")],
          TransInfo.mk ("en") (3.456 : ℚ))) true)).2.fs = [] :=
  double_run_independent (Upload.mk ("a.wav") 4) [Segment.mk ("Hello")]
    (TransInfo.mk ("en") (3.456 : ℚ)) (by decide) (by decide)

/-- C1 fails on the code: on a validated upload whose staging read raises
after the scratch file has been created (and before `temp_path` is
assigned), the `finally` clause itself raises, the scratch file stays on
the filesystem, and it is never deleted; the handler exits with an
unhandled fault rather than a logged best-effort deletion. -/
theorem scratch_file_leak_on_staging_failure :
    (transcribe_audio (Upload.mk ("a.wav") 4)
        (Oracles.mk (Except.ok ()) (Except.error ("read interrupted"))
          (Except.ok ([], TransInfo.mk ("en") 0)) true) [] 0).scratch =
      some (tempName 0) ∧
    (transcribe_audio (Upload.mk ("a.wav") 4)
        (Oracles.mk (Except.ok ()) (Except.error ("read interrupted"))
          (Except.ok ([], TransInfo.mk ("en") 0)) true) [] 0).fs =
      [tempName 0] ∧
    (transcribe_audio (Upload.mk ("a.wav") 4)
        (Oracles.mk (Except.ok ()) (Except.error ("read interrupted"))
          (Except.ok ([], TransInfo.mk ("en") 0)) true) [] 0).outcome =
      Outcome.unhandled unboundLocalMsg :=
  ⟨rfl, rfl, rfl⟩

/-- C2 fails on the code: on a validated upload whose staging write raises
after the scratch file has been created, the exception the client sees is
not the mapped 500 HTTPException but the unbound-local fault raised inside
the `finally` clause, which escapes the handler unhandled. -/
theorem raw_fault_escapes_on_staging_failure :
    (transcribe_audio (Upload.mk ("b.mp3") 7)
        (Oracles.mk (Except.ok ()) (Except.error ("disk full"))
          (Except.ok ([], TransInfo.mk ("en") 0)) true) [] 0).outcome =
      Outcome.unhandled unboundLocalMsg :=
  rfl

/-- C6 fails on the code: the health endpoint evaluates
`torch.cuda.is_available()` but `main.py` never imports `torch`, so every
`GET /` raises `NameError` instead of returning the 200 status body,
whatever the hardware; with the name bound the handler would return
exactly the claimed static body. -/
theorem health_endpoint_raises_name_error :
    root mainModuleNames true = Except.error (PyExc.nameError ("torch")) ∧
    root mainModuleNames false = Except.error (PyExc.nameError ("torch")) ∧
    root (("torch") :: mainModuleNames) true =
      Except.ok (RootBody.mk ("running") MODEL_SIZE ("cuda")) ∧
    root (("torch") :: mainModuleNames) false =
      Except.ok (RootBody.mk ("running") MODEL_SIZE ("cpu")) :=
  ⟨rfl, rfl, rfl, rfl⟩

/-- C7 fails on the code: `load_model` raises `NameError` on its first
statement because `torch` is never imported, on either hardware class, so
no device or precision is ever selected; the selection expressions of
lines 37-38 as written do pair cuda with float16 and cpu with int8. -/
theorem load_model_raises_name_error :
    load_model mainModuleNames true (Except.ok (WhisperModel.mk 0)) =
      Except.error (PyExc.nameError ("torch")) ∧
    load_model mainModuleNames false (Except.ok (WhisperModel.mk 0)) =
      Except.error (PyExc.nameError ("torch")) ∧
    selectDeviceCompute true = (("cuda"), ("float16")) ∧
    selectDeviceCompute false = (("cpu"), ("int8")) :=
  ⟨rfl, rfl, rfl, rfl⟩

/-- C8: whenever the startup phase fails - the model construction included -
the exception propagates out of `lifespan` and the app never reaches its
serving state; and whenever startup does reach the serving state, the
global `model` holds exactly the handle `load_model` produced, so it is
initialized before any transcription request is accepted. -/
theorem startup_serving_invariant (env : List String) (cudaAvailable : Bool)
    (construct : Except String WhisperModel) :
    (∀ e, load_model env cudaAvailable construct = Except.error e →
      ∀ st, lifespan_startup env cudaAvailable construct ≠ Except.ok st) ∧
    (∀ st, lifespan_startup env cudaAvailable construct = Except.ok st →
      st.serving = true ∧ ∃ m, st.model = some m ∧
        load_model env cudaAvailable construct = Except.ok m) := by
  unfold lifespan_startup
  cases h : load_model env cudaAvailable construct with
  | error e =>
      refine ⟨fun _ _ st hst => by simp at hst, fun st hst => by simp at hst⟩
  | ok m =>
      refine ⟨fun e he st _ => by simp [h] at he, fun st hst => ?_⟩
      have : st = ServerState.mk (some m) true := by
        injection hst with h2
        exact h2.symm
      subst this
      exact ⟨rfl, m, rfl, rfl⟩

/-- Witness for C8: with the real module namespace startup fails and the
serving state is unreachable; with `torch` bound and a successful engine
construction, the serving state carries the constructed handle. -/
theorem startup_serving_invariant_wit :
    lifespan_startup mainModuleNames true (Except.ok (WhisperModel.mk 0)) ≠
      Except.ok (ServerState.mk none false) ∧
    ((ServerState.mk (some (WhisperModel.mk 0)) true).serving = true ∧
      ∃ m, (ServerState.mk (some (WhisperModel.mk 0)) true).model = some m ∧
        load_model (("torch") :: mainModuleNames) true
          (Except.ok (WhisperModel.mk 0)) = Except.ok m) :=
  ⟨(startup_serving_invariant mainModuleNames true
      (Except.ok (WhisperModel.mk 0))).1 (PyExc.nameError ("torch")) rfl
      (ServerState.mk none false),
   (startup_serving_invariant (("torch") :: mainModuleNames) true
      (Except.ok (WhisperModel.mk 0))).2
      (ServerState.mk (some (WhisperModel.mk 0)) true) rfl⟩
